import Mathlib

/-!
Shallow embedding of the Pear Protocol authentication and agent-wallet
subsystem of this repository:

* `backend/app/trade/services/pear_auth_service.py` — EIP-712 signing,
  login, `ensure_authenticated`;
* `backend/app/trade/services/pear_service.py` — `_request` and
  `get_agent_wallet` response normalization;
* `backend/app/trade/router_pear.py` — the `setup_agent_wallet` flow;
* `scripts/pear_setup.py` — `check_agent_approved` / `step5_approve_agent`.

Python dicts are modelled as association lists with unique keys (deletion
removes every binding of the key, matching dict semantics); JSON scalar
values as the inductive `JVal`; external libraries (`eth_account`,
`httpx`) as abstract function parameters; exceptions as `Except` with the
error taxonomy `PyErr` mirroring `backend/app/core/exceptions.py` plus the
builtin `KeyError`.
-/

namespace PearSpec

/-- Scalar JSON values as they appear in the API payloads (`null`,
strings, numbers). -/
inductive JVal where
  | null : JVal
  | str (s : String) : JVal
  | num (n : Int) : JVal
deriving DecidableEq, Repr

/-- A Python dict with string keys, modelled as an association list. -/
def PyDict (α : Type) : Type := List (String × α)

namespace PyDict

/-- `d[k]` / `d.get(k)` — first binding of `k`, if any. -/
def get? {α : Type} (d : PyDict α) (k : String) : Option α :=
  match d with
  | [] => none
  | (k', v) :: rest => if k' = k then some v else get? rest k

/-- `k in d` — membership test on keys. -/
def hasKey {α : Type} (d : PyDict α) (k : String) : Bool :=
  match d with
  | [] => false
  | (k', _) :: rest => k' = k || hasKey rest k

/-- `del d[k]` — removes the key (dict keys are unique, so removing every
binding of `k` is dict deletion). -/
def delKey {α : Type} (d : PyDict α) (k : String) : PyDict α :=
  d.filter (fun kv => kv.1 ≠ k)

theorem get?_delKey_self {α : Type} (d : PyDict α) (k : String) :
    (delKey d k).get? k = none := by
  induction d with
  | nil => rfl
  | cons kv rest ih =>
      by_cases h : kv.1 = k
      · simp [delKey, List.filter, h] at ih ⊢
        exact ih
      · simp [delKey, List.filter, h] at ih ⊢
        simp [get?, h, ih]

theorem hasKey_eq_false_iff {α : Type} (d : PyDict α) (k : String) :
    hasKey d k = false ↔ get? d k = none := by
  induction d with
  | nil => simp [hasKey, get?]
  | cons kv rest ih =>
      by_cases h : kv.1 = k
      · simp [hasKey, get?, h]
      · simp [hasKey, get?, h, ih]

theorem hasKey_delKey_self {α : Type} (d : PyDict α) (k : String) :
    hasKey (delKey d k) k = false := by
  rw [hasKey_eq_false_iff]
  exact get?_delKey_self d k

end PyDict

/-- Truthiness of an optional JSON value under Python rules: `None`,
JSON `null`, the empty string and the number `0` are falsy. -/
def jTruthy : Option JVal → Bool
  | none => false
  | some JVal.null => false
  | some (JVal.str s) => s ≠ ""
  | some (JVal.num n) => n ≠ 0

/-- Python `a or b`: returns `a` when truthy, otherwise `b`. -/
def pyOr (a b : Option JVal) : Option JVal :=
  if jTruthy a then a else b

/-- The exception taxonomy relevant to this subsystem:
`ExternalServiceError` from `backend/app/core/exceptions.py` (carrying
service name and message) and Python's builtin `KeyError` raised by a
failed subscript `d["k"]`. -/
inductive PyErr where
  | externalServiceError (service : String) (message : String) : PyErr
  | keyError (key : String) : PyErr
deriving DecidableEq, Repr

/-! ## EIP-712 signing (`pear_auth_service.py`, `sign_eip712_message` and
`sign_eip712_message_with_key`)

The `types` mapping of an EIP-712 payload maps type names to lists of
`{name, type}` field descriptors. -/

/-- One `{name, type}` entry of an EIP-712 type definition. -/
structure FieldDef where
  name : String
  type : String
deriving DecidableEq, Repr

/-- The `types` mapping of an EIP-712 payload. -/
def TypesMap : Type := PyDict (List FieldDef)

/-- The argument `eip712_data`: a dict which may or may not carry the
keys `domain`, `types`, `message` (a missing key makes the subscript in
the Python source raise `KeyError`). -/
structure Eip712Data where
  domain : Option (PyDict JVal)
  types : Option TypesMap
  message : Option (PyDict JVal)

/-- The external `eth_account` library, abstracted: `encode_typed_data`
builds a signable message of some type `S` from domain data, message
types and message data; `Account.sign_message` signs it with a hex
private key and may fail (malformed key), in which case the Python
wrapper converts the exception text. -/
structure EthLib (S : Type) where
  encode_typed_data : PyDict JVal → TypesMap → PyDict JVal → S
  sign_message : S → String → Except String String

/-- The `types` value actually handed to `encode_typed_data`: the body
copies `eip712_data["types"]` and deletes `"EIP712Domain"` when present
(`pear_auth_service.py` lines 138–143 and 196–201). -/
def typesForEncoder (types : TypesMap) : TypesMap :=
  if PyDict.hasKey types "EIP712Domain" then PyDict.delKey types "EIP712Domain"
  else types

/-- Embedding of `PearAuthService.sign_eip712_message` (lines 123–178):
checks the configured private key, extracts `domain`/`types`/`message`
by subscript (raising `KeyError` when missing), strips `EIP712Domain`
from a copy of `types`, normalizes the `0x` prefix of the key, encodes
and signs; exceptions inside the `try` block become
`ExternalServiceError`; the returned timestamp is
`message.get("timestamp", "")`. -/
def sign_eip712_message {S : Type} (lib : EthLib S) (private_key : Option String)
    (eip712_data : Eip712Data) : Except PyErr (String × JVal) := do
  let some pk0 := private_key
    | throw (PyErr.externalServiceError "Pear Protocol" "No private key configured")
  if pk0 = "" then
    throw (PyErr.externalServiceError "Pear Protocol" "No private key configured")
  let some domain := eip712_data.domain | throw (PyErr.keyError "domain")
  let some types0 := eip712_data.types | throw (PyErr.keyError "types")
  let some message := eip712_data.message | throw (PyErr.keyError "message")
  let types := typesForEncoder types0
  let pk := if pk0.startsWith "0x" then pk0 else "0x" ++ pk0
  match lib.sign_message (lib.encode_typed_data domain types message) pk with
  | Except.error e =>
      throw (PyErr.externalServiceError "Pear Protocol" ("Failed to sign message: " ++ e))
  | Except.ok sig0 =>
      let signature := if sig0.startsWith "0x" then sig0 else "0x" ++ sig0
      let timestamp := (PyDict.get? message "timestamp").getD (JVal.str "")
      pure (signature, timestamp)

/-- Embedding of `PearAuthService.sign_eip712_message_with_key`
(lines 180–235): identical body, but the key is the argument and the
missing-key message differs. -/
def sign_eip712_message_with_key {S : Type} (lib : EthLib S) (eip712_data : Eip712Data)
    (private_key : String) : Except PyErr (String × JVal) := do
  if private_key = "" then
    throw (PyErr.externalServiceError "Pear Protocol" "No private key provided")
  let some domain := eip712_data.domain | throw (PyErr.keyError "domain")
  let some types0 := eip712_data.types | throw (PyErr.keyError "types")
  let some message := eip712_data.message | throw (PyErr.keyError "message")
  let types := typesForEncoder types0
  let pk := if private_key.startsWith "0x" then private_key else "0x" ++ private_key
  match lib.sign_message (lib.encode_typed_data domain types message) pk with
  | Except.error e =>
      throw (PyErr.externalServiceError "Pear Protocol" ("Failed to sign message: " ++ e))
  | Except.ok sig0 =>
      let signature := if sig0.startsWith "0x" then sig0 else "0x" ++ sig0
      let timestamp := (PyDict.get? message "timestamp").getD (JVal.str "")
      pure (signature, timestamp)

/-! ## Agent-wallet status normalization (`pear_service.py`,
`PearService.get_agent_wallet`, lines 273–316) -/

/-- The status enum `AgentWalletStatus` from `backend/app/trade/schemas.py`
(lines 305–311). -/
inductive AgentWalletStatus where
  | NOT_FOUND : AgentWalletStatus
  | ACTIVE : AgentWalletStatus
  | PENDING_APPROVAL : AgentWalletStatus
  | EXPIRED : AgentWalletStatus
deriving DecidableEq, Repr

/-- The enum constructor `AgentWalletStatus(status_str)`: succeeds exactly
on the four member values, otherwise Python raises `ValueError`
(modelled as `none`). -/
def AgentWalletStatus.ofString? : JVal → Option AgentWalletStatus
  | JVal.str "NOT_FOUND" => some AgentWalletStatus.NOT_FOUND
  | JVal.str "ACTIVE" => some AgentWalletStatus.ACTIVE
  | JVal.str "PENDING_APPROVAL" => some AgentWalletStatus.PENDING_APPROVAL
  | JVal.str "EXPIRED" => some AgentWalletStatus.EXPIRED
  | _ => none

/-- The address extraction of `get_agent_wallet` (lines 288–292):
`response.get("agentWalletAddress") or response.get("agentAddress") or
response.get("address")` under Python `or` semantics. -/
def agentAddressOf (response : PyDict JVal) : Option JVal :=
  pyOr (PyDict.get? response "agentWalletAddress")
    (pyOr (PyDict.get? response "agentAddress") (PyDict.get? response "address"))

/-- Embedding of the response normalization of
`PearService.get_agent_wallet` (lines 283–306): an empty response dict
maps to `NOT_FOUND`; otherwise the status is taken from the `status`
field when truthy (falling back on the address on a `ValueError`),
else inferred from the presence of a truthy address. Total: no branch
raises. -/
def get_agent_wallet_status (response : PyDict JVal) : AgentWalletStatus :=
  if response.isEmpty then AgentWalletStatus.NOT_FOUND
  else
    let agent_address := agentAddressOf response
    let status_str := PyDict.get? response "status"
    if jTruthy status_str then
      match status_str with
      | some v =>
          match AgentWalletStatus.ofString? v with
          | some st => st
          | none =>
              if jTruthy agent_address then AgentWalletStatus.PENDING_APPROVAL
              else AgentWalletStatus.NOT_FOUND
      | none => AgentWalletStatus.NOT_FOUND
    else if jTruthy agent_address then AgentWalletStatus.PENDING_APPROVAL
    else AgentWalletStatus.NOT_FOUND

/-! ## Agent wallet setup flow (`router_pear.py`, `setup_agent_wallet`,
lines 440–530, step 3 dispatch at 486–518) -/

/-- Outcome of the setup flow's step 3: which terminal status string was
reported, which address, and whether `create_agent_wallet` was called. -/
structure SetupOutcome where
  status : String
  agent_wallet_address : Option String
  create_called : Bool
deriving DecidableEq, Repr

/-- Embedding of the step-3 dispatch of `setup_agent_wallet`
(lines 486–518): when the queried status is `ACTIVE` the flow reports
`ready` with the existing address; when `PENDING_APPROVAL`, it reports
`pending_approval` with the existing address; only on `NOT_FOUND` or
`EXPIRED` does it call `create_agent_wallet` and report `created` with
the new wallet's address. -/
def setup_agent_wallet_step3 (wallet_status : AgentWalletStatus)
    (wallet_address : Option String) (created_address : Option String) : SetupOutcome :=
  match wallet_status with
  | AgentWalletStatus.ACTIVE =>
      { status := "ready", agent_wallet_address := wallet_address, create_called := false }
  | AgentWalletStatus.PENDING_APPROVAL =>
      { status := "pending_approval", agent_wallet_address := wallet_address,
        create_called := false }
  | AgentWalletStatus.NOT_FOUND =>
      { status := "created", agent_wallet_address := created_address, create_called := true }
  | AgentWalletStatus.EXPIRED =>
      { status := "created", agent_wallet_address := created_address, create_called := true }

/-! ## Agent approval pre-check (`scripts/pear_setup.py`,
`check_agent_approved` lines 128–155 and `step5_approve_agent`
lines 158–276) -/

/-- Python's `str.lower()`, character-wise. -/
def pyLower (s : String) : String := String.mk (s.data.map Char.toLower)

/-- Embedding of `check_agent_approved`: POSTs
`{"type": "extraAgents", "user": wallet_address}` to the info endpoint;
on a 200 response scans the returned agent list for an entry whose
`address` field (default `""`) equals the target case-insensitively;
any other response status yields `False`. -/
def check_agent_approved (resp_status : Nat) (agents : List (PyDict String))
    (agent_address : String) : Bool :=
  if resp_status = 200 then
    agents.any (fun agent =>
      pyLower ((PyDict.get? agent "address").getD "") = pyLower agent_address)
  else false

/-- The Hyperliquid `approveAgent` action payload built by
`step5_approve_agent` (lines 207–212). -/
structure AgentAction where
  type : String
  agentAddress : String
  agentName : String
  nonce : Nat
deriving DecidableEq, Repr

/-- Observable outcome of one run of `step5_approve_agent`: whether the
pre-check reported the agent as already approved (returning
`{"status": "already_approved"}` without signing anything), and which
action, if any, was signed and posted via `exchange._post_action`. -/
structure ApprovalRun where
  already_approved : Bool
  submitted_action : Option AgentAction
deriving DecidableEq, Repr

/-- Embedding of `step5_approve_agent` (lines 158–276): first runs
`check_agent_approved`; when it returns `True` the function returns
`{"status": "already_approved"}` without constructing, signing or
posting any action; otherwise it builds the `approveAgent` action with
`agentName = "Agent Pear"` and the millisecond timestamp as nonce, and
posts it. -/
def step5_approve_agent (precheck_status : Nat) (agents : List (PyDict String))
    (agent_address : String) (timestamp : Nat) : ApprovalRun :=
  if check_agent_approved precheck_status agents agent_address then
    { already_approved := true, submitted_action := none }
  else
    { already_approved := false,
      submitted_action := some
        { type := "approveAgent", agentAddress := agent_address,
          agentName := "Agent Pear", nonce := timestamp } }

/-! ## Auth session state machine (`pear_auth_service.py`)

The remote service is modelled as fixed outcomes for the two auth
endpoints; the session state is the stored `_access_token`; a trace
counts how many remote calls each run performed. -/

/-- An HTTP response as seen through `httpx`: status code, raw text, and
the parsed JSON body (`none` when the body is empty or not JSON, in
which case `response.json()` raises). -/
structure HttpResp where
  status : Nat
  text : String
  json : Option (PyDict JVal)

/-- Outcome of one HTTP call: a response, or a transport-level error
(`httpx.RequestError`). -/
inductive HttpOutcome where
  | resp (r : HttpResp) : HttpOutcome
  | netErr (msg : String) : HttpOutcome

/-- `response.raise_for_status()` passes exactly on 2xx. -/
def isSuccess (status : Nat) : Bool := 200 ≤ status && status < 300

/-- Outcome of the challenge endpoint `GET /auth/eip712-message`, whose
JSON body is the EIP-712 payload. -/
inductive ChallengeOutcome where
  | resp (status : Nat) (text : String) (body : Eip712Data) : ChallengeOutcome
  | netErr (msg : String) : ChallengeOutcome

/-- The remote world a run interacts with: what the challenge endpoint
and the login endpoint would return. -/
structure World where
  challenge : ChallengeOutcome
  login_resp : HttpOutcome

/-- The mutable state of `PearAuthService`: the stored `_access_token`
(Python `None` or the JSON value taken from the login response). -/
structure AuthState where
  access_token : Option JVal
deriving DecidableEq

/-- The immutable configuration of `PearAuthService`: the signing
library, the configured private key and the wallet address derived from
it (`None` when derivation fails). -/
structure AuthSvc (S : Type) where
  lib : EthLib S
  private_key : Option String
  wallet_address : Option String

/-- Count of remote calls performed by a run. -/
structure Trace where
  challenge_calls : Nat
  login_calls : Nat
deriving DecidableEq, Repr

/-- Embedding of `PearAuthService.get_eip712_message` (lines 72–121):
requires an address, performs the GET, raises `ExternalServiceError` on
non-2xx or transport error, otherwise returns the body. -/
def get_eip712_message_run (addr : Option String) (w : World) :
    Except PyErr Eip712Data × Trace :=
  match addr with
  | none => (Except.error (PyErr.externalServiceError "Pear Protocol"
      "No wallet address available"), ⟨0, 0⟩)
  | some _ =>
      match w.challenge with
      | ChallengeOutcome.netErr msg =>
          (Except.error (PyErr.externalServiceError "Pear Protocol" msg), ⟨1, 0⟩)
      | ChallengeOutcome.resp status text body =>
          if isSuccess status then (Except.ok body, ⟨1, 0⟩)
          else (Except.error (PyErr.externalServiceError "Pear Protocol"
            ("Failed to get EIP-712 message: " ++ text)), ⟨1, 0⟩)

/-- Embedding of the HTTP half of `PearAuthService.login`
(lines 291–331): POSTs the payload, raises on non-2xx or transport
error, raises when the 2xx body lacks a truthy `accessToken`, and only
then stores the token into `_access_token` and returns it.  In every
failure branch the state is returned untouched. -/
def login_http (s : AuthState) (outcome : HttpOutcome) :
    Except PyErr JVal × AuthState :=
  match outcome with
  | HttpOutcome.netErr msg =>
      (Except.error (PyErr.externalServiceError "Pear Protocol" msg), s)
  | HttpOutcome.resp r =>
      if isSuccess r.status then
        match r.json with
        | none =>
            (Except.error (PyErr.externalServiceError "Pear Protocol"
              "invalid JSON body"), s)
        | some data =>
            match PyDict.get? data "accessToken" with
            | some tok =>
                if jTruthy (some tok) then
                  (Except.ok tok, { access_token := some tok })
                else
                  (Except.error (PyErr.externalServiceError "Pear Protocol"
                    "No access token in response"), s)
            | none =>
                (Except.error (PyErr.externalServiceError "Pear Protocol"
                  "No access token in response"), s)
      else
        (Except.error (PyErr.externalServiceError "Pear Protocol"
          ("Login failed: " ++ r.text)), s)

/-- Embedding of `PearAuthService.login` (lines 237–331): resolves the
address, fetches and signs the challenge when no signature was supplied,
then performs the HTTP login.  Failures before the HTTP call leave the
state untouched. -/
def login_run {S : Type} (svc : AuthSvc S) (w : World) (s : AuthState)
    (signature : Option String) (timestamp : Option JVal) :
    Except PyErr JVal × AuthState × Trace :=
  match svc.wallet_address with
  | none => (Except.error (PyErr.externalServiceError "Pear Protocol"
      "No wallet address available"), s, ⟨0, 0⟩)
  | some _ =>
      match signature, timestamp with
      | some _, some _ =>
          let (r, s') := login_http s w.login_resp
          (r, s', ⟨0, 1⟩)
      | _, _ =>
          match get_eip712_message_run svc.wallet_address w with
          | (Except.error e, tr) => (Except.error e, s, tr)
          | (Except.ok body, tr) =>
              match sign_eip712_message svc.lib svc.private_key body with
              | Except.error e => (Except.error e, s, tr)
              | Except.ok _ =>
                  let (r, s') := login_http s w.login_resp
                  (r, s', ⟨tr.challenge_calls, tr.login_calls + 1⟩)

/-- Embedding of `PearAuthService.authenticate` (lines 333–357):
requires a configured private key, fetches the challenge, signs it, and
logs in with the resulting signature and timestamp. -/
def authenticate_run {S : Type} (svc : AuthSvc S) (w : World) (s : AuthState) :
    Except PyErr JVal × AuthState × Trace :=
  if svc.private_key = none ∨ svc.private_key = some "" then
    (Except.error (PyErr.externalServiceError "Pear Protocol"
      "WALLET_PRIVATE_KEY not configured"), s, ⟨0, 0⟩)
  else
    match get_eip712_message_run svc.wallet_address w with
    | (Except.error e, tr) => (Except.error e, s, tr)
    | (Except.ok body, tr) =>
        match sign_eip712_message svc.lib svc.private_key body with
        | Except.error e => (Except.error e, s, tr)
        | Except.ok (signature, timestamp) =>
            match login_run svc w s (some signature) (some timestamp) with
            | (r, s', tr') =>
                (r, s', ⟨tr.challenge_calls + tr'.challenge_calls,
                  tr.login_calls + tr'.login_calls⟩)

/-- Embedding of `PearAuthService.ensure_authenticated` (lines 359–368):
when `_access_token` is not `None` the method performs no remote call
and returns the stored token; otherwise it runs `authenticate()` and
returns the then-stored token. -/
def ensure_authenticated_run {S : Type} (svc : AuthSvc S) (w : World) (s : AuthState) :
    Except PyErr (Option JVal) × AuthState × Trace :=
  match s.access_token with
  | some _ => (Except.ok s.access_token, s, ⟨0, 0⟩)
  | none =>
      match authenticate_run svc w s with
      | (Except.error e, s', tr) => (Except.error e, s', tr)
      | (Except.ok _, s', tr) => (Except.ok s'.access_token, s', tr)

/-! ## The trading gateway request helper (`pear_service.py`,
`PearService._request`, lines 88–146) -/

/-- Count of remote calls performed by one `_request` run. -/
structure ReqTrace where
  challenge_calls : Nat
  login_calls : Nat
  api_calls : Nat
deriving DecidableEq, Repr

/-- Embedding of `PearService._request` (lines 88–146): when
`require_auth` is set it first runs `ensure_authenticated` (propagating
its failures) and rebuilds the client headers, then performs exactly one
HTTP call to the endpoint; `raise_for_status` turns any non-2xx
response — a 401 included — into `ExternalServiceError "{status}: {text}"`
with no session invalidation, no re-authentication and no retry; a 204
or empty body yields `{}`; a transport error yields
`ExternalServiceError` with the error text. -/
def pear_request {S : Type} (svc : AuthSvc S) (w : World) (api : HttpOutcome)
    (s : AuthState) (require_auth : Bool) :
    Except PyErr (PyDict JVal) × AuthState × ReqTrace :=
  let auth_step : Except PyErr Unit × AuthState × Trace :=
    if require_auth then
      match ensure_authenticated_run svc w s with
      | (Except.error e, s', tr) => (Except.error e, s', tr)
      | (Except.ok _, s', tr) => (Except.ok (), s', tr)
    else (Except.ok (), s, ⟨0, 0⟩)
  match auth_step with
  | (Except.error e, s', tr) =>
      (Except.error e, s', ⟨tr.challenge_calls, tr.login_calls, 0⟩)
  | (Except.ok _, s', tr) =>
      let base : ReqTrace := ⟨tr.challenge_calls, tr.login_calls, 1⟩
      match api with
      | HttpOutcome.netErr msg =>
          (Except.error (PyErr.externalServiceError "Pear Protocol" msg), s', base)
      | HttpOutcome.resp r =>
          if isSuccess r.status then
            if r.status = 204 || r.json.isNone then (Except.ok [], s', base)
            else (Except.ok (r.json.getD []), s', base)
          else
            (Except.error (PyErr.externalServiceError "Pear Protocol"
              (toString r.status ++ ": " ++ r.text)), s', base)

/-! ## Aliasing model of the `types` copy (`pear_auth_service.py`,
lines 136–143 / 194–201)

To settle the frame claim about mutation of the caller's dict, the
`types` dict objects live in an explicit heap of objects addressed by
index; `d.copy()` allocates a fresh object, `del` mutates in place. -/

/-- A heap of `types` dict objects, addressed by their index. -/
structure SignHeap where
  objs : List TypesMap

/-- Read the object a reference points to. -/
def SignHeap.read (h : SignHeap) (r : Nat) : TypesMap :=
  h.objs.getD r []

/-- `d.copy()`: allocate a fresh object holding the same entries;
returns the new heap and the fresh reference. -/
def SignHeap.copy (h : SignHeap) (r : Nat) : SignHeap × Nat :=
  (⟨h.objs ++ [h.read r]⟩, h.objs.length)

/-- In-place update of the object a reference points to. -/
def SignHeap.write (h : SignHeap) (r : Nat) (v : TypesMap) : SignHeap :=
  ⟨h.objs.set r v⟩

/-- The `types`-handling phase of `sign_eip712_message` /
`sign_eip712_message_with_key` with aliasing made explicit:
`types = eip712_data["types"].copy()` allocates a fresh object, then
`if "EIP712Domain" in types: del types["EIP712Domain"]` mutates only
that fresh object.  Returns the final heap and the reference whose
object is handed to `encode_typed_data`. -/
def sign_types_phase (h : SignHeap) (types_ref : Nat) : SignHeap × Nat :=
  let (h1, local_ref) := h.copy types_ref
  let tv := h1.read local_ref
  if PyDict.hasKey tv "EIP712Domain" then
    (h1.write local_ref (PyDict.delKey tv "EIP712Domain"), local_ref)
  else (h1, local_ref)

/-! ## Interleaving model of concurrent `ensure_authenticated` callers

`ensure_authenticated` reads `_access_token` synchronously; when it is
`None` the caller awaits `authenticate()`, whose HTTP calls are asyncio
suspension points, and on resumption completes the login, storing the
token and costing one login call to the remote.  The source
(`pear_auth_service.py` lines 359–368) holds no lock around this. -/

/-- Where one caller of `ensure_authenticated` stands: about to perform
the synchronous token check; suspended inside the awaited
`authenticate()` HTTP exchange; or returned. -/
inductive CallerPhase where
  | ready : CallerPhase
  | authing : CallerPhase
  | finished : CallerPhase
deriving DecidableEq, Repr

/-- Shared session state plus the phase of two concurrent callers and
the number of login calls the remote has received. -/
structure ConcState where
  token : Option JVal
  logins : Nat
  caller0 : CallerPhase
  caller1 : CallerPhase
deriving DecidableEq, Repr

/-- One scheduler step of a single caller: the `ready` caller checks the
shared token (`if self._access_token is None`) and either returns at
once or enters the awaited `authenticate()`; the suspended caller
resumes, completes the login (one remote login call) and stores the
resulting token. -/
def callerStep (p : CallerPhase) (token : Option JVal) (logins : Nat) :
    CallerPhase × Option JVal × Nat :=
  match p with
  | CallerPhase.ready =>
      match token with
      | some _ => (CallerPhase.finished, token, logins)
      | none => (CallerPhase.authing, token, logins)
  | CallerPhase.authing =>
      (CallerPhase.finished, some (JVal.str "tok"), logins + 1)
  | CallerPhase.finished => (CallerPhase.finished, token, logins)

/-- Advance the caller the scheduler picked (`false` = caller 0). -/
def concStep (s : ConcState) (pick : Bool) : ConcState :=
  if pick then
    let (p, t, l) := callerStep s.caller1 s.token s.logins
    { s with caller1 := p, token := t, logins := l }
  else
    let (p, t, l) := callerStep s.caller0 s.token s.logins
    { s with caller0 := p, token := t, logins := l }

/-- Run a schedule (a list of scheduler picks) from a state. -/
def concRun (sched : List Bool) (s : ConcState) : ConcState :=
  sched.foldl concStep s

/-- Both callers start unauthenticated on a shared session with no
token. -/
def concInit : ConcState :=
  { token := none, logins := 0,
    caller0 := CallerPhase.ready, caller1 := CallerPhase.ready }

/-! ## Theorems -/

/-- A concrete instantiation of the abstract `eth_account` library, used
to evaluate the embeddings at concrete inputs: the signable message is
trivial and signing echoes the key. -/
def unitLib : EthLib Unit where
  encode_typed_data := fun _ _ _ => ()
  sign_message := fun _ pk => Except.ok pk

/-- C1: whenever the challenge's `types` mapping contains an
`"EIP712Domain"` entry, both `sign_eip712_message` and
`sign_eip712_message_with_key` hand the typed-data encoder a `types`
mapping without that key, and the whole computation (encoding, hence
signature) equals the one on the challenge with that entry absent —
for every encoder and signer. -/
theorem c1_eip712domain_stripped {S : Type} (lib : EthLib S) (pk : String)
    (domain message : PyDict JVal) (types : TypesMap)
    (h : PyDict.hasKey types "EIP712Domain" = true) :
    PyDict.hasKey (typesForEncoder types) "EIP712Domain" = false ∧
    sign_eip712_message lib (some pk)
        { domain := some domain, types := some types, message := some message } =
      sign_eip712_message lib (some pk)
        { domain := some domain, types := some (PyDict.delKey types "EIP712Domain"),
          message := some message } ∧
    sign_eip712_message_with_key lib
        { domain := some domain, types := some types, message := some message } pk =
      sign_eip712_message_with_key lib
        { domain := some domain, types := some (PyDict.delKey types "EIP712Domain"),
          message := some message } pk := by
  have hstrip : typesForEncoder types = PyDict.delKey types "EIP712Domain" := by
    simp [typesForEncoder, h]
  have hstrip2 : typesForEncoder (PyDict.delKey types "EIP712Domain") =
      PyDict.delKey types "EIP712Domain" := by
    simp [typesForEncoder, PyDict.hasKey_delKey_self]
  refine ⟨?_, ?_, ?_⟩
  · rw [hstrip]
    exact PyDict.hasKey_delKey_self types "EIP712Domain"
  · simp [sign_eip712_message, hstrip, hstrip2]
  · simp [sign_eip712_message_with_key, hstrip, hstrip2]

/-- Witness for C1 at a concrete challenge whose `types` contains
`"EIP712Domain"`. -/
theorem c1_witness :
    PyDict.hasKey ([("EIP712Domain", []), ("Authentication", [⟨"address", "address"⟩])] :
        TypesMap) "EIP712Domain" = true ∧
    PyDict.hasKey (typesForEncoder
        [("EIP712Domain", []), ("Authentication", [⟨"address", "address"⟩])])
      "EIP712Domain" = false :=
  ⟨by decide,
    (c1_eip712domain_stripped unitLib "aa" [] []
      [("EIP712Domain", []), ("Authentication", [⟨"address", "address"⟩])]
      (by decide)).1⟩

/-- A recognized status string is one of the four nonempty member
values, hence truthy. -/
theorem ofString?_truthy {v : JVal} {st : AgentWalletStatus}
    (h : AgentWalletStatus.ofString? v = some st) : jTruthy (some v) = true := by
  cases v with
  | null => simp [AgentWalletStatus.ofString?] at h
  | num n => simp [AgentWalletStatus.ofString?] at h
  | str s =>
      simp only [jTruthy, decide_eq_true_eq]
      intro hs
      subst hs
      simp [AgentWalletStatus.ofString?] at h

/-- C2: the normalization of `get_agent_wallet`: an empty response body
yields `NOT_FOUND`; a non-empty response with a truthy address in one of
the fields `agentWalletAddress`/`agentAddress`/`address` but no truthy
`status` yields `PENDING_APPROVAL`; a recognized status string yields
that status; an unrecognized status string yields `PENDING_APPROVAL`
when an address is present and `NOT_FOUND` otherwise.  The
normalization is a total function, so no input raises. -/
theorem c2_agent_wallet_normalization :
    (∀ r : PyDict JVal, r.isEmpty = true →
        get_agent_wallet_status r = AgentWalletStatus.NOT_FOUND) ∧
    (∀ r : PyDict JVal, r.isEmpty = false →
        jTruthy (agentAddressOf r) = true →
        jTruthy (PyDict.get? r "status") = false →
        get_agent_wallet_status r = AgentWalletStatus.PENDING_APPROVAL) ∧
    (∀ (r : PyDict JVal) (v : JVal) (st : AgentWalletStatus), r.isEmpty = false →
        PyDict.get? r "status" = some v →
        AgentWalletStatus.ofString? v = some st →
        get_agent_wallet_status r = st) ∧
    (∀ (r : PyDict JVal) (sv : String), r.isEmpty = false →
        PyDict.get? r "status" = some (JVal.str sv) →
        AgentWalletStatus.ofString? (JVal.str sv) = none →
        get_agent_wallet_status r =
          (if jTruthy (agentAddressOf r) then AgentWalletStatus.PENDING_APPROVAL
           else AgentWalletStatus.NOT_FOUND)) := by
  refine ⟨?_, ?_, ?_, ?_⟩
  · intro r hr
    simp [get_agent_wallet_status, hr]
  · intro r hr haddr hst
    simp [get_agent_wallet_status, hr, hst, haddr]
  · intro r v st hr hget hof
    simp [get_agent_wallet_status, hr, hget, ofString?_truthy hof, hof]
  · intro r sv hr hget hof
    by_cases htr : jTruthy (some (JVal.str sv)) = true
    · simp [get_agent_wallet_status, hr, hget, htr, hof]
    · simp only [Bool.not_eq_true] at htr
      simp [get_agent_wallet_status, hr, hget, htr]

/-- Witness for C2 at the three response shapes named by the spec. -/
theorem c2_witness :
    get_agent_wallet_status [] = AgentWalletStatus.NOT_FOUND ∧
    get_agent_wallet_status [("address", JVal.str "0xabc"), ("status", JVal.null)] =
      AgentWalletStatus.PENDING_APPROVAL ∧
    get_agent_wallet_status [("status", JVal.str "ACTIVE"), ("address", JVal.str "0xabc")] =
      AgentWalletStatus.ACTIVE ∧
    get_agent_wallet_status [("status", JVal.str "WEIRD"), ("address", JVal.str "0xabc")] =
      AgentWalletStatus.PENDING_APPROVAL :=
  ⟨c2_agent_wallet_normalization.1 [] (by decide),
   c2_agent_wallet_normalization.2.1 [("address", JVal.str "0xabc"), ("status", JVal.null)]
     (by decide) (by decide) (by decide),
   c2_agent_wallet_normalization.2.2.1
     [("status", JVal.str "ACTIVE"), ("address", JVal.str "0xabc")]
     (JVal.str "ACTIVE") AgentWalletStatus.ACTIVE (by decide) (by decide) (by decide),
   by
     have := c2_agent_wallet_normalization.2.2.2
       [("status", JVal.str "WEIRD"), ("address", JVal.str "0xabc")]
       "WEIRD" (by decide) (by decide) (by decide)
     simpa using this⟩

/-- A concrete service configuration for evaluating runs. -/
def demoSvc : AuthSvc Unit where
  lib := unitLib
  private_key := some "aa"
  wallet_address := some "0xWallet"

/-- A concrete remote world whose auth endpoints are never consulted by
the runs that evaluate it. -/
def idleWorld : World where
  challenge := ChallengeOutcome.netErr "unused"
  login_resp := HttpOutcome.netErr "unused"

/-- C3 counterexample: with an authenticated session (stored token
`"t"`), a 401 from the API endpoint makes `_request` raise
`ExternalServiceError "401: Unauthorized"` after exactly one API call,
with zero re-authentication calls and the stored token left in place —
refuting the claim that the implementation invalidates the session,
re-authenticates and retries the call once on a 401. -/
theorem c3_counterexample :
    pear_request demoSvc idleWorld
        (HttpOutcome.resp { status := 401, text := "Unauthorized", json := none })
        { access_token := some (JVal.str "t") } true =
      (Except.error (PyErr.externalServiceError "Pear Protocol" "401: Unauthorized"),
        { access_token := some (JVal.str "t") }, ⟨0, 0, 1⟩) := by
  rfl

/-- C3 amended: on any 401 response to an authenticated call,
`_request` raises `ExternalServiceError` carrying the status and body
text after exactly one API call; the session token is not invalidated,
no re-authentication occurs, and the call is not retried. -/
theorem c3_amended_single_call_on_401 {S : Type} (svc : AuthSvc S) (w : World)
    (t : JVal) (text : String) (body : Option (PyDict JVal)) :
    pear_request svc w (HttpOutcome.resp { status := 401, text := text, json := body })
        { access_token := some t } true =
      (Except.error (PyErr.externalServiceError "Pear Protocol" ("401: " ++ text)),
        { access_token := some t }, ⟨0, 0, 1⟩) := by
  simp [pear_request, ensure_authenticated_run, isSuccess]
  rfl

/-- `login_http` never changes the state on a failure. -/
theorem login_http_error_state (s : AuthState) (o : HttpOutcome) (e : PyErr)
    (s' : AuthState) (h : login_http s o = (Except.error e, s')) : s' = s := by
  cases o with
  | netErr m =>
      simp [login_http] at h
      exact h.2.symm
  | resp r =>
      cases hs : isSuccess r.status with
      | false =>
          simp [login_http, hs] at h
          exact h.2.symm
      | true =>
          cases hj : r.json with
          | none =>
              simp [login_http, hs, hj] at h
              exact h.2.symm
          | some data =>
              cases hg : PyDict.get? data "accessToken" with
              | none =>
                  simp [login_http, hs, hj, hg] at h
                  exact h.2.symm
              | some tok =>
                  cases ht : jTruthy (some tok) with
                  | false =>
                      simp [login_http, hs, hj, hg, ht] at h
                      exact h.2.symm
                  | true => simp [login_http, hs, hj, hg, ht] at h

/-- On a success, `login_http` stores exactly the returned token. -/
theorem login_http_ok_state (s : AuthState) (o : HttpOutcome) (tok : JVal)
    (s' : AuthState) (h : login_http s o = (Except.ok tok, s')) :
    s' = { access_token := some tok } := by
  cases o with
  | netErr m => simp [login_http] at h
  | resp r =>
      cases hs : isSuccess r.status with
      | false => simp [login_http, hs] at h
      | true =>
          cases hj : r.json with
          | none => simp [login_http, hs, hj] at h
          | some data =>
              cases hg : PyDict.get? data "accessToken" with
              | none => simp [login_http, hs, hj, hg] at h
              | some tok' =>
                  cases ht : jTruthy (some tok') with
                  | false => simp [login_http, hs, hj, hg, ht] at h
                  | true =>
                      simp [login_http, hs, hj, hg, ht] at h
                      rw [← h.2, ← h.1]

/-- `login_run` never changes the state on a failure. -/
theorem login_run_error_state {S : Type} (svc : AuthSvc S) (w : World) (s : AuthState)
    (sig : Option String) (ts : Option JVal) (e : PyErr) (s' : AuthState) (tr : Trace)
    (h : login_run svc w s sig ts = (Except.error e, s', tr)) : s' = s := by
  unfold login_run at h
  cases hwa : svc.wallet_address with
  | none =>
      simp [hwa] at h
      exact h.2.1.symm
  | some a =>
      cases sig with
      | some sg =>
          cases ts with
          | some t =>
              rcases hlh : login_http s w.login_resp with ⟨r2, s2⟩
              cases r2 with
              | error e2 =>
                  simp [hwa, hlh] at h
                  rw [← h.2.1]
                  exact login_http_error_state s w.login_resp e2 s2 hlh
              | ok tok => simp [hwa, hlh] at h
          | none =>
              rcases hch : get_eip712_message_run (some a) w with ⟨rch, trc⟩
              cases rch with
              | error e2 =>
                  simp [hwa, hch] at h
                  exact h.2.1.symm
              | ok body =>
                  cases hsg : sign_eip712_message svc.lib svc.private_key body with
                  | error e2 =>
                      simp [hwa, hch, hsg] at h
                      exact h.2.1.symm
                  | ok v =>
                      rcases hlh : login_http s w.login_resp with ⟨r2, s2⟩
                      cases r2 with
                      | error e2 =>
                          simp [hwa, hch, hsg, hlh] at h
                          rw [← h.2.1]
                          exact login_http_error_state s w.login_resp e2 s2 hlh
                      | ok tok => simp [hwa, hch, hsg, hlh] at h
      | none =>
          rcases hch : get_eip712_message_run (some a) w with ⟨rch, trc⟩
          cases rch with
          | error e2 =>
              simp [hwa, hch] at h
              exact h.2.1.symm
          | ok body =>
              cases hsg : sign_eip712_message svc.lib svc.private_key body with
              | error e2 =>
                  simp [hwa, hch, hsg] at h
                  exact h.2.1.symm
              | ok v =>
                  rcases hlh : login_http s w.login_resp with ⟨r2, s2⟩
                  cases r2 with
                  | error e2 =>
                      simp [hwa, hch, hsg, hlh] at h
                      rw [← h.2.1]
                      exact login_http_error_state s w.login_resp e2 s2 hlh
                  | ok tok => simp [hwa, hch, hsg, hlh] at h

/-- On a success, `login_run` stores exactly the returned token. -/
theorem login_run_ok_state {S : Type} (svc : AuthSvc S) (w : World) (s : AuthState)
    (sig : Option String) (ts : Option JVal) (tok : JVal) (s' : AuthState) (tr : Trace)
    (h : login_run svc w s sig ts = (Except.ok tok, s', tr)) :
    s' = { access_token := some tok } := by
  unfold login_run at h
  cases hwa : svc.wallet_address with
  | none => simp [hwa] at h
  | some a =>
      cases sig with
      | some sg =>
          cases ts with
          | some t =>
              rcases hlh : login_http s w.login_resp with ⟨r2, s2⟩
              cases r2 with
              | error e2 => simp [hwa, hlh] at h
              | ok tok2 =>
                  simp [hwa, hlh] at h
                  rw [← h.2.1, ← h.1]
                  exact login_http_ok_state s w.login_resp tok2 s2 hlh
          | none =>
              rcases hch : get_eip712_message_run (some a) w with ⟨rch, trc⟩
              cases rch with
              | error e2 => simp [hwa, hch] at h
              | ok body =>
                  cases hsg : sign_eip712_message svc.lib svc.private_key body with
                  | error e2 => simp [hwa, hch, hsg] at h
                  | ok v =>
                      rcases hlh : login_http s w.login_resp with ⟨r2, s2⟩
                      cases r2 with
                      | error e2 => simp [hwa, hch, hsg, hlh] at h
                      | ok tok2 =>
                          simp [hwa, hch, hsg, hlh] at h
                          rw [← h.2.1, ← h.1]
                          exact login_http_ok_state s w.login_resp tok2 s2 hlh
      | none =>
          rcases hch : get_eip712_message_run (some a) w with ⟨rch, trc⟩
          cases rch with
          | error e2 => simp [hwa, hch] at h
          | ok body =>
              cases hsg : sign_eip712_message svc.lib svc.private_key body with
              | error e2 => simp [hwa, hch, hsg] at h
              | ok v =>
                  rcases hlh : login_http s w.login_resp with ⟨r2, s2⟩
                  cases r2 with
                  | error e2 => simp [hwa, hch, hsg, hlh] at h
                  | ok tok2 =>
                      simp [hwa, hch, hsg, hlh] at h
                      rw [← h.2.1, ← h.1]
                      exact login_http_ok_state s w.login_resp tok2 s2 hlh

/-- `authenticate_run` never changes the state on a failure. -/
theorem authenticate_run_error_state {S : Type} (svc : AuthSvc S) (w : World)
    (s : AuthState) (e : PyErr) (s' : AuthState) (tr : Trace)
    (h : authenticate_run svc w s = (Except.error e, s', tr)) : s' = s := by
  unfold authenticate_run at h
  by_cases hpk : svc.private_key = none ∨ svc.private_key = some ""
  · simp [hpk] at h
    exact h.2.1.symm
  · simp only [if_neg hpk] at h
    rcases hch : get_eip712_message_run svc.wallet_address w with ⟨rch, trc⟩
    cases rch with
    | error e2 =>
        simp [hch] at h
        exact h.2.1.symm
    | ok body =>
        cases hsg : sign_eip712_message svc.lib svc.private_key body with
        | error e2 =>
            simp [hch, hsg] at h
            exact h.2.1.symm
        | ok v =>
            rcases hlr : login_run svc w s (some v.1) (some v.2) with ⟨r2, s2, tr2⟩
            cases r2 with
            | error e2 =>
                simp [hch, hsg, hlr] at h
                rw [← h.2.1]
                exact login_run_error_state svc w s (some v.1) (some v.2) e2 s2 tr2 hlr
            | ok tok => simp [hch, hsg, hlr] at h

/-- On a success, `authenticate_run` stores exactly the returned
token. -/
theorem authenticate_run_ok_state {S : Type} (svc : AuthSvc S) (w : World)
    (s : AuthState) (tok : JVal) (s' : AuthState) (tr : Trace)
    (h : authenticate_run svc w s = (Except.ok tok, s', tr)) :
    s' = { access_token := some tok } := by
  unfold authenticate_run at h
  by_cases hpk : svc.private_key = none ∨ svc.private_key = some ""
  · simp [hpk] at h
  · simp only [if_neg hpk] at h
    rcases hch : get_eip712_message_run svc.wallet_address w with ⟨rch, trc⟩
    cases rch with
    | error e2 => simp [hch] at h
    | ok body =>
        cases hsg : sign_eip712_message svc.lib svc.private_key body with
        | error e2 => simp [hch, hsg] at h
        | ok v =>
            rcases hlr : login_run svc w s (some v.1) (some v.2) with ⟨r2, s2, tr2⟩
            cases r2 with
            | error e2 => simp [hch, hsg, hlr] at h
            | ok tok2 =>
                simp [hch, hsg, hlr] at h
                rw [← h.2.1, ← h.1]
                exact login_run_ok_state svc w s (some v.1) (some v.2) tok2 s2 tr2 hlr

/-- C4: `ensure_authenticated` is idempotent: with a stored token it
performs no remote call, leaves the session unchanged and returns the
token; with no token its effect on session state and its remote calls
are exactly those of `authenticate`; and running it twice in sequence
leaves the session in the same state as running it once. -/
theorem c4_ensure_authenticated_idempotent {S : Type} (svc : AuthSvc S) (w : World)
    (s : AuthState) :
    (∀ t, s.access_token = some t →
        ensure_authenticated_run svc w s = (Except.ok (some t), s, ⟨0, 0⟩)) ∧
    (s.access_token = none →
        (ensure_authenticated_run svc w s).2 = (authenticate_run svc w s).2) ∧
    ((ensure_authenticated_run svc w (ensure_authenticated_run svc w s).2.1).2.1 =
        (ensure_authenticated_run svc w s).2.1) := by
  refine ⟨?_, ?_, ?_⟩
  · intro t ht
    simp [ensure_authenticated_run, ht]
  · intro hn
    rcases ha : authenticate_run svc w s with ⟨r, s', tr⟩
    cases r with
    | error e => simp [ensure_authenticated_run, hn, ha]
    | ok tok => simp [ensure_authenticated_run, hn, ha]
  · cases ht : s.access_token with
    | some t => simp [ensure_authenticated_run, ht]
    | none =>
        rcases ha : authenticate_run svc w s with ⟨r, s', tr⟩
        cases r with
        | error e =>
            have hs' : s' = s := authenticate_run_error_state svc w s e s' tr ha
            subst hs'
            simp [ensure_authenticated_run, ht, ha]
        | ok tok =>
            have hs' : s' = { access_token := some tok } :=
              authenticate_run_ok_state svc w s tok s' tr ha
            subst hs'
            simp [ensure_authenticated_run, ht, ha]

/-- Witness for C4 at a session already holding a token and one holding
none. -/
theorem c4_witness :
    ensure_authenticated_run demoSvc idleWorld { access_token := some (JVal.str "T") } =
      (Except.ok (some (JVal.str "T")), { access_token := some (JVal.str "T") }, ⟨0, 0⟩) ∧
    (ensure_authenticated_run demoSvc idleWorld { access_token := none }).2 =
      (authenticate_run demoSvc idleWorld { access_token := none }).2 :=
  ⟨(c4_ensure_authenticated_idempotent demoSvc idleWorld
      { access_token := some (JVal.str "T") }).1 (JVal.str "T") rfl,
   (c4_ensure_authenticated_idempotent demoSvc idleWorld
      { access_token := none }).2.1 rfl⟩

/-- C5 counterexample: a challenge missing its `domain` field makes the
signing operation fail with Python's builtin `KeyError` — raised by the
subscript `eip712_data["domain"]` before the `try` block — not with any
error type of the application's taxonomy (the codebase has no
`SigningError` at all; its local signing failures use
`ExternalServiceError`). -/
theorem c5_counterexample :
    sign_eip712_message unitLib (some "aa")
        { domain := none, types := some [], message := some [] } =
      Except.error (PyErr.keyError "domain") := by
  rfl

/-- C5 amended: the signing operation raises `ExternalServiceError`
when the private key is unconfigured (`None` or empty) or when the
signing library rejects the key (malformed key); a missing `domain`,
`types` or `message` field raises a `KeyError` that escapes to the
caller uncaught; with a configured key, present fields and an accepting
library, it succeeds. -/
theorem c5_amended_error_taxonomy {S : Type} (lib : EthLib S) (pk : String)
    (hpk : pk ≠ "") (domain message : PyDict JVal) (types : TypesMap) :
    (∀ (t : Option TypesMap) (m : Option (PyDict JVal)),
        sign_eip712_message lib (some pk) { domain := none, types := t, message := m } =
          Except.error (PyErr.keyError "domain")) ∧
    (∀ m : Option (PyDict JVal),
        sign_eip712_message lib (some pk)
            { domain := some domain, types := none, message := m } =
          Except.error (PyErr.keyError "types")) ∧
    (sign_eip712_message lib (some pk)
        { domain := some domain, types := some types, message := none } =
      Except.error (PyErr.keyError "message")) ∧
    (sign_eip712_message lib none
        { domain := some domain, types := some types, message := some message } =
      Except.error (PyErr.externalServiceError "Pear Protocol"
        "No private key configured")) ∧
    (sign_eip712_message lib (some "")
        { domain := some domain, types := some types, message := some message } =
      Except.error (PyErr.externalServiceError "Pear Protocol"
        "No private key configured")) ∧
    (∀ e : String,
        lib.sign_message (lib.encode_typed_data domain (typesForEncoder types) message)
            (if pk.startsWith "0x" then pk else "0x" ++ pk) = Except.error e →
        sign_eip712_message lib (some pk)
            { domain := some domain, types := some types, message := some message } =
          Except.error (PyErr.externalServiceError "Pear Protocol"
            ("Failed to sign message: " ++ e))) ∧
    (∀ sig0 : String,
        lib.sign_message (lib.encode_typed_data domain (typesForEncoder types) message)
            (if pk.startsWith "0x" then pk else "0x" ++ pk) = Except.ok sig0 →
        sign_eip712_message lib (some pk)
            { domain := some domain, types := some types, message := some message } =
          Except.ok (if sig0.startsWith "0x" then sig0 else "0x" ++ sig0,
            (PyDict.get? message "timestamp").getD (JVal.str ""))) := by
  refine ⟨?_, ?_, ?_, ?_, ?_, ?_, ?_⟩
  · intro t m
    simp [sign_eip712_message, hpk, throw, throwThe, MonadExceptOf.throw]
  · intro m
    simp [sign_eip712_message, hpk, throw, throwThe, MonadExceptOf.throw]
  · simp [sign_eip712_message, hpk, throw, throwThe, MonadExceptOf.throw]
  · simp [sign_eip712_message, throw, throwThe, MonadExceptOf.throw]
  · simp [sign_eip712_message, throw, throwThe, MonadExceptOf.throw, bind, Except.bind]
  · intro e he
    simp [sign_eip712_message, hpk, he, throw, throwThe, MonadExceptOf.throw, bind,
      Except.bind, pure, Except.pure]
  · intro sig0 hs
    simp [sign_eip712_message, hpk, hs, throw, throwThe, MonadExceptOf.throw, bind,
      Except.bind, pure, Except.pure]

/-- Witness for C5's amended statement at a concrete key and challenge:
a missing `message` gives a `KeyError`, a rejecting library gives an
`ExternalServiceError`. -/
theorem c5_witness :
    sign_eip712_message unitLib (some "aa")
        { domain := some [], types := some [], message := none } =
      Except.error (PyErr.keyError "message") ∧
    sign_eip712_message
        { encode_typed_data := fun _ _ _ => (),
          sign_message := fun _ _ => Except.error "bad key" }
        (some "zz") { domain := some [], types := some [], message := some [] } =
      Except.error (PyErr.externalServiceError "Pear Protocol"
        "Failed to sign message: bad key") :=
  ⟨(c5_amended_error_taxonomy unitLib "aa" (by decide) [] [] []).2.2.1,
   (c5_amended_error_taxonomy
      { encode_typed_data := fun _ _ _ => (),
        sign_message := fun _ _ => Except.error "bad key" }
      "zz" (by decide) [] [] []).2.2.2.2.2.1 "bad key" rfl⟩

/-- C6: the approval flow of `step5_approve_agent` is query-before-write
idempotent: whenever the 200 pre-check response lists an agent whose
`address` equals the target case-insensitively, the flow reports
already-approved and signs/submits no `approveAgent` action; the write
is submitted (with the exact payload shape of the source) only when the
pre-check does not list the address. -/
theorem c6_approve_query_before_write (agents : List (PyDict String))
    (addr : String) (ts : Nat) :
    (∀ a : PyDict String, a ∈ agents →
        pyLower ((PyDict.get? a "address").getD "") = pyLower addr →
        step5_approve_agent 200 agents addr ts =
          { already_approved := true, submitted_action := none }) ∧
    (check_agent_approved 200 agents addr = false →
        step5_approve_agent 200 agents addr ts =
          { already_approved := false,
            submitted_action := some
              { type := "approveAgent", agentAddress := addr,
                agentName := "Agent Pear", nonce := ts } }) := by
  constructor
  · intro a ha heq
    have hc : check_agent_approved 200 agents addr = true := by
      unfold check_agent_approved
      rw [if_pos rfl, List.any_eq_true]
      exact ⟨a, ha, by simp [heq]⟩
    simp [step5_approve_agent, hc]
  · intro hc
    simp [step5_approve_agent, hc]

/-- Witness for C6 at a one-agent pre-check list matching the target
address up to case. -/
theorem c6_witness :
    step5_approve_agent 200 [[("address", "0xAbCd"), ("name", "Agent Pear")]]
        "0xABCD" 1700000000 =
      { already_approved := true, submitted_action := none } :=
  (c6_approve_query_before_write [[("address", "0xAbCd"), ("name", "Agent Pear")]]
      "0xABCD" 1700000000).1
    [("address", "0xAbCd"), ("name", "Agent Pear")] (by simp) (by decide)

/-- C7: the setup flow issues the creation request exactly when the
queried status is `NOT_FOUND` or `EXPIRED`; on `ACTIVE` it reports
`ready` and on `PENDING_APPROVAL` it reports `pending_approval`, in both
cases returning the existing wallet's address without calling create. -/
theorem c7_create_only_when_absent (st : AgentWalletStatus)
    (addr created : Option String) :
    ((setup_agent_wallet_step3 st addr created).create_called = true ↔
        (st = AgentWalletStatus.NOT_FOUND ∨ st = AgentWalletStatus.EXPIRED)) ∧
    (st = AgentWalletStatus.ACTIVE →
        setup_agent_wallet_step3 st addr created =
          { status := "ready", agent_wallet_address := addr, create_called := false }) ∧
    (st = AgentWalletStatus.PENDING_APPROVAL →
        setup_agent_wallet_step3 st addr created =
          { status := "pending_approval", agent_wallet_address := addr,
            create_called := false }) := by
  refine ⟨?_, ?_, ?_⟩
  · cases st <;> simp [setup_agent_wallet_step3]
  · intro h
    subst h
    rfl
  · intro h
    subst h
    rfl

/-- Witness for C7 at an `ACTIVE` wallet. -/
theorem c7_witness :
    setup_agent_wallet_step3 AgentWalletStatus.ACTIVE (some "0xagent") none =
      { status := "ready", agent_wallet_address := some "0xagent",
        create_called := false } :=
  (c7_create_only_when_absent AgentWalletStatus.ACTIVE (some "0xagent") none).2.1 rfl

/-- C8 counterexample: with two concurrent callers of
`ensure_authenticated` on an unauthenticated session, the interleaving
in which both callers perform the synchronous token check before either
completes the awaited `authenticate()` drives both into login: the
remote receives two login calls, not one, and both callers finish —
refuting the single-flight claim (the source holds no lock). -/
theorem c8_counterexample :
    (concRun [false, true, false, true] concInit).logins = 2 ∧
    (concRun [false, true, false, true] concInit).caller0 = CallerPhase.finished ∧
    (concRun [false, true, false, true] concInit).caller1 = CallerPhase.finished := by
  decide

/-- C8 amended: `ensure_authenticated` has no serialization guard, so
the number of login calls depends on the interleaving: when one caller
finishes before the other starts, the second observes the stored token
and performs no login (one login in total); when both check the token
before either completes, each performs its own login (two logins). -/
theorem c8_amended_no_single_flight :
    (concRun [false, false, true] concInit).logins = 1 ∧
    (concRun [false, false, true] concInit).caller1 = CallerPhase.finished ∧
    (concRun [false, true, false, true] concInit).logins = 2 := by
  decide

/-- `List.getD` of an appended singleton at the old length. -/
theorem getD_append_self {α : Type} (l : List α) (a d : α) :
    (l ++ [a]).getD l.length d = a := by
  induction l with
  | nil => rfl
  | cons x xs ih => simp [ih]

/-- `List.getD` of an appended list below the old length. -/
theorem getD_append_lt {α : Type} (l l' : List α) (n : Nat) (d : α)
    (h : n < l.length) : (l ++ l').getD n d = l.getD n d := by
  induction l generalizing n with
  | nil => simp at h
  | cons x xs ih =>
      cases n with
      | zero => rfl
      | succ m =>
          simp only [List.length_cons, Nat.succ_lt_succ_iff] at h
          simpa using ih m h

/-- `List.getD` after `List.set` at a different index. -/
theorem getD_set_ne {α : Type} (l : List α) (i j : Nat) (v d : α)
    (h : i ≠ j) : (l.set i v).getD j d = l.getD j d := by
  induction l generalizing i j with
  | nil => rfl
  | cons x xs ih =>
      cases i with
      | zero =>
          cases j with
          | zero => exact absurd rfl h
          | succ m => rfl
      | succ i' =>
          cases j with
          | zero => rfl
          | succ m =>
              simpa using ih i' m (fun hc => h (by rw [hc]))

/-- C9: the signing functions never mutate the caller's challenge: the
`types` dict is shallow-copied before the `"EIP712Domain"` entry is
deleted, so after the `types` phase of `sign_eip712_message` /
`sign_eip712_message_with_key` the object the caller's `eip712_data`
still references is unchanged (its `"EIP712Domain"` entry and all other
keys intact), while the encoder receives the stripped copy. -/
theorem c9_no_mutation_of_challenge (h : SignHeap) (types_ref : Nat)
    (hr : types_ref < h.objs.length) :
    (sign_types_phase h types_ref).1.read types_ref = h.read types_ref ∧
    (sign_types_phase h types_ref).1.read (sign_types_phase h types_ref).2 =
      typesForEncoder (h.read types_ref) := by
  have hne : h.objs.length ≠ types_ref := Nat.ne_of_gt hr
  have hread_copy : (SignHeap.mk (h.objs ++ [h.read types_ref])).read h.objs.length =
      h.read types_ref := getD_append_self h.objs (h.read types_ref) []
  have hread_old : (SignHeap.mk (h.objs ++ [h.read types_ref])).read types_ref =
      h.read types_ref :=
    getD_append_lt h.objs [h.read types_ref] types_ref [] hr
  unfold sign_types_phase SignHeap.copy
  by_cases hk : PyDict.hasKey ((SignHeap.mk (h.objs ++ [h.read types_ref])).read
      h.objs.length) "EIP712Domain" = true
  · simp only [hk, if_pos]
    constructor
    · show (SignHeap.mk ((h.objs ++ [h.read types_ref]).set h.objs.length _)).read
          types_ref = h.read types_ref
      unfold SignHeap.read at hread_old ⊢
      rw [getD_set_ne _ _ _ _ _ hne]
      exact hread_old
    · show (SignHeap.mk ((h.objs ++ [h.read types_ref]).set h.objs.length _)).read
          h.objs.length = typesForEncoder (h.read types_ref)
      have hlen : h.objs.length < (h.objs ++ [h.read types_ref]).length := by
        simp
      unfold SignHeap.read
      rw [List.getD_eq_getElem _ _ (by simp), List.getElem_set_self]
      rw [hread_copy] at hk
      simp only [SignHeap.read, List.getD_eq_getElem?_getD] at hk
      simp [typesForEncoder, hk]
  · simp only [Bool.not_eq_true] at hk
    simp only [hk, Bool.false_eq_true, if_false]
    refine ⟨hread_old, ?_⟩
    rw [hread_copy]
    rw [hread_copy] at hk
    simp [typesForEncoder, hk]

/-- Witness for C9 at a one-object heap whose `types` dict carries
`"EIP712Domain"`. -/
theorem c9_witness :
    (sign_types_phase ⟨[[("EIP712Domain", []), ("Authentication", [])]]⟩ 0).1.read 0 =
      [("EIP712Domain", []), ("Authentication", [])] ∧
    (0 : Nat) < 1 :=
  ⟨by
    have := (c9_no_mutation_of_challenge
      ⟨[[("EIP712Domain", []), ("Authentication", [])]]⟩ 0 (by decide)).1
    simpa [SignHeap.read] using this,
   by decide⟩

/-- C10: `login` updates the stored access token atomically: on every
failure (transport error, non-2xx status, invalid JSON, missing or
empty `accessToken`) it raises and leaves the session state — hence any
previously stored token — exactly as it was; it stores a token only on
a 2xx response whose body carries a truthy `accessToken`, and then
stores exactly that token.  The same holds through the full `login`
entry point. -/
theorem c10_login_token_atomic {S : Type} (svc : AuthSvc S) (w : World)
    (s : AuthState) (o : HttpOutcome) :
    (∀ (e : PyErr) (s' : AuthState), login_http s o = (Except.error e, s') → s' = s) ∧
    (∀ (tok : JVal) (s' : AuthState), login_http s o = (Except.ok tok, s') →
        s' = { access_token := some tok } ∧
        ∃ r : HttpResp, o = HttpOutcome.resp r ∧ isSuccess r.status = true ∧
          ∃ data : PyDict JVal, r.json = some data ∧
            PyDict.get? data "accessToken" = some tok ∧ jTruthy (some tok) = true) ∧
    (∀ (sig : Option String) (ts : Option JVal) (e : PyErr) (s' : AuthState) (tr : Trace),
        login_run svc w s sig ts = (Except.error e, s', tr) → s' = s) := by
  refine ⟨?_, ?_, ?_⟩
  · exact fun e s' hh => login_http_error_state s o e s' hh
  · intro tok s' hh
    refine ⟨login_http_ok_state s o tok s' hh, ?_⟩
    cases o with
    | netErr m => simp [login_http] at hh
    | resp r =>
        refine ⟨r, rfl, ?_⟩
        cases hs : isSuccess r.status with
        | false => simp [login_http, hs] at hh
        | true =>
            refine ⟨rfl, ?_⟩
            cases hj : r.json with
            | none => simp [login_http, hs, hj] at hh
            | some data =>
                refine ⟨data, rfl, ?_⟩
                cases hg : PyDict.get? data "accessToken" with
                | none => simp [login_http, hs, hj, hg] at hh
                | some tok' =>
                    cases ht : jTruthy (some tok') with
                    | false => simp [login_http, hs, hj, hg, ht] at hh
                    | true =>
                        simp [login_http, hs, hj, hg, ht] at hh
                        obtain ⟨h1, h2⟩ := hh
                        subst h1
                        exact ⟨rfl, ht⟩
  · exact fun sig ts e s' tr hh => login_run_error_state svc w s sig ts e s' tr hh

/-- Witness for C10 at a failing login (402-style rejection) and a
succeeding one. -/
theorem c10_witness :
    (login_http { access_token := some (JVal.str "old") }
        (HttpOutcome.resp { status := 401, text := "rejected", json := none })).2 =
      { access_token := some (JVal.str "old") } ∧
    (login_http { access_token := some (JVal.str "old") }
        (HttpOutcome.resp
          { status := 200, text := "", json := some [("accessToken", JVal.str "new")] })).2 =
      { access_token := some (JVal.str "new") } :=
  ⟨(c10_login_token_atomic demoSvc idleWorld
        { access_token := some (JVal.str "old") }
        (HttpOutcome.resp { status := 401, text := "rejected", json := none })).1
      (PyErr.externalServiceError "Pear Protocol" "Login failed: rejected")
      { access_token := some (JVal.str "old") } rfl,
   ((c10_login_token_atomic demoSvc idleWorld
        { access_token := some (JVal.str "old") }
        (HttpOutcome.resp
          { status := 200, text := "", json := some [("accessToken", JVal.str "new")] })).2.1
      (JVal.str "new") { access_token := some (JVal.str "new") } rfl).1⟩

end PearSpec
